import Mathlib

/-!
Shallow embedding of the usability-testing tool in `src/Main.py`.

The program persists each stage's submissions as rows of a per-stage CSV
file.  A CSV file is modelled as a header (the column names written on
first append) together with a list of data rows; a file that does not
exist on disk is `none : Option CsvFile`.  Cell values are modelled by the
`Value` type (strings, integers, rationals standing in for Python floats,
and booleans).
-/

/-- A scalar cell value of a record, as produced by the form widgets. -/
inductive Value where
  | str (s : String)
  | int (n : Int)
  | rat (q : ℚ)
  | bool (b : Bool)
  deriving DecidableEq, Repr

/-- A CSV file on disk: the header row and the data rows, in file order. -/
structure CsvFile where
  header : List String
  rows : List (List Value)
  deriving DecidableEq, Repr

/-- The keys of a record (`data_dict`), in insertion order. -/
def dictKeys (data_dict : List (String × Value)) : List String :=
  data_dict.map Prod.fst

/-- The values of a record (`data_dict`), in insertion order. -/
def dictVals (data_dict : List (String × Value)) : List Value :=
  data_dict.map Prod.snd

/-- `save_to_csv(data_dict, csv_file)` from `src/Main.py`: append a new row
to a CSV file, creating it (with a header taken from the keys of
`data_dict`) if it does not exist, and appending a single data row without
a header otherwise. -/
def save_to_csv (data_dict : List (String × Value)) (csv_file : Option CsvFile) :
    CsvFile :=
  match csv_file with
  | none => { header := dictKeys data_dict, rows := [dictVals data_dict] }
  | some f => { f with rows := f.rows ++ [dictVals data_dict] }

/-- `load_from_csv(csv_file)` from `src/Main.py`: read the whole file into a
DataFrame, or return an empty DataFrame if the file does not exist. -/
def load_from_csv (csv_file : Option CsvFile) : CsvFile :=
  match csv_file with
  | some f => f
  | none => { header := [], rows := [] }

/-- Folding a list of appends over a store, one `save_to_csv` per record. -/
def saveAll (ds : List (List (String × Value))) (csv_file : Option CsvFile) :
    Option CsvFile :=
  ds.foldl (fun s d => some (save_to_csv d s)) csv_file

/-- The records of a loaded DataFrame viewed as mappings: each row paired
with the header, in row order. -/
def dataFrameRecords (df : CsvFile) : List (List (String × Value)) :=
  df.rows.map (fun r => df.header.zip r)

/-! ### Consent stage (`with consent:` block of `main`) -/

/-- The `data_dict` built in the consent branch of `main`. -/
def consentDict (ts : String) (consent_given : Bool) : List (String × Value) :=
  [("timestamp", Value.str ts), ("consent_given", Value.bool consent_given)]

/-- One press of "Submit Consent": if the checkbox is unchecked a warning is
surfaced (`true` in the second component) and nothing is saved; otherwise
the consent record is appended and no warning is shown. -/
def submitConsent (consent_given : Bool) (ts : String)
    (store : Option CsvFile) : Option CsvFile × Bool :=
  if consent_given = false then
    (store, true)
  else
    (some (save_to_csv (consentDict ts consent_given) store), false)

/-- A sequence of "Submit Consent" presses, each with its checkbox state and
submission timestamp; returns the final store and the list of warning flags
surfaced, one per press. -/
def consentPresses (presses : List (Bool × String)) (store : Option CsvFile) :
    Option CsvFile × List Bool :=
  match presses with
  | [] => (store, [])
  | (cg, ts) :: rest =>
      let r := submitConsent cg ts store
      let restRes := consentPresses rest r.1
      (restRes.1, r.2 :: restRes.2)

/-! ### Demographics stage (`with demographics:` block of `main`) -/

/-- The `data_dict` built in the demographics branch of `main`. -/
def demographicDict (ts name : String) (age : Int)
    (occupation familiarity : String) : List (String × Value) :=
  [("timestamp", Value.str ts), ("name", Value.str name),
   ("age", Value.int age), ("occupation", Value.str occupation),
   ("familiarity", Value.str familiarity)]

/-- One "Submit Demographics" press: the record is appended unconditionally. -/
def submitDemographics (ts name : String) (age : Int)
    (occupation familiarity : String) (store : Option CsvFile) :
    Option CsvFile :=
  some (save_to_csv (demographicDict ts name age occupation familiarity) store)

/-! ### Task stage (`with tasks:` block of `main`) -/

/-- The session-scoped state of the task stage: `st.session_state` keys
`start_time` and `task_duration` (absent keys are `none`), together with the
task CSV store.  Times are modelled as rationals. -/
structure TaskState where
  start_time : Option ℚ
  task_duration : Option ℚ
  store : Option CsvFile
  deriving DecidableEq, Repr

/-- The duration cell written by "Save Task Results":
`duration_val if duration_val else ""`, i.e. the stored duration when it is
truthy (present and nonzero) and the empty string otherwise. -/
def durationField (duration_val : Option ℚ) : Value :=
  match duration_val with
  | some d => if d = 0 then Value.str "" else Value.rat d
  | none => Value.str ""

/-- The `data_dict` built by "Save Task Results". -/
def taskDict (ts task_name success : String) (duration_val : Option ℚ)
    (notes : String) : List (String × Value) :=
  [("timestamp", Value.str ts), ("task_name", Value.str task_name),
   ("success", Value.str success),
   ("duration_seconds", durationField duration_val),
   ("notes", Value.str notes)]

/-- The user actions available on the task page. -/
inductive TaskAction where
  | startTimer (now : ℚ)
  | stopTimer (now : ℚ)
  | saveResults (ts task_name success notes : String)
  deriving DecidableEq, Repr

/-- One task-page interaction, following `main`:
* "Start Task Timer" records the current time in `start_time`;
* "Stop Task Timer" computes `now - start_time` into `task_duration`, and
  does nothing when the timer was never started;
* "Save Task Results" appends the task record and deletes both session
  keys. -/
def taskStep (st : TaskState) (a : TaskAction) : TaskState :=
  match a with
  | TaskAction.startTimer now => { st with start_time := some now }
  | TaskAction.stopTimer now =>
      match st.start_time with
      | some s => { st with task_duration := some (now - s) }
      | none => st
  | TaskAction.saveResults ts task_name success notes =>
      { start_time := none, task_duration := none,
        store := some (save_to_csv
          (taskDict ts task_name success st.task_duration notes) st.store) }

/-- Run a sequence of task-page actions from a state. -/
def runTask (st : TaskState) (acts : List TaskAction) : TaskState :=
  acts.foldl taskStep st

/-- The fresh task-page state over a given store: no timer keys present. -/
def initTask (store : Option CsvFile) : TaskState :=
  { start_time := none, task_duration := none, store := store }

/-- The `duration_seconds` cell of the most recently appended task record
(column index 3 of the last row). -/
def lastDurationCell (store : Option CsvFile) : Option Value :=
  ((load_from_csv store).rows.getLast?).bind (fun r => r.get? 3)

/-! ### Exit questionnaire stage (`with exit_q:` block of `main`) -/

/-- One exit-questionnaire submission's inputs. -/
structure ExitInput where
  ts : String
  satisfaction : Int
  difficulty : Int
  open_feedback : String
  deriving DecidableEq, Repr

/-- The `data_dict` built in the exit-questionnaire branch of `main`. -/
def exitDict (e : ExitInput) : List (String × Value) :=
  [("timestamp", Value.str e.ts),
   ("satisfaction", Value.int e.satisfaction),
   ("difficulty", Value.int e.difficulty),
   ("open_feedback", Value.str e.open_feedback)]

/-- One "Submit Exit Questionnaire" press: the record is appended
unconditionally. -/
def submitExit (e : ExitInput) (store : Option CsvFile) : Option CsvFile :=
  some (save_to_csv (exitDict e) store)

/-- A sequence of exit submissions. -/
def submitExitAll (es : List ExitInput) (store : Option CsvFile) :
    Option CsvFile :=
  es.foldl (fun s e => submitExit e s) store

/-! ### Report view (`with report:` block of `main`) -/

/-- Numeric reading of a cell, as pandas does for a numeric column. -/
def Value.toRat : Value → ℚ
  | Value.str _ => 0
  | Value.int n => (n : ℚ)
  | Value.rat q => q
  | Value.bool b => if b then 1 else 0

/-- The column of a DataFrame under a given name (`df["name"]`): the cells
at the header position of that name, in row order. -/
def getColumn (df : CsvFile) (name : String) : List Value :=
  match df.header.findIdx? (fun h => h = name) with
  | some i => df.rows.filterMap (fun r => r.get? i)
  | none => []

/-- The arithmetic mean of a list of rationals (`Series.mean`). -/
def listMean (xs : List ℚ) : ℚ :=
  xs.sum / (xs.length : ℚ)

/-- Rounding to two decimal places, as the `:.2f` display format does. -/
def round2 (q : ℚ) : ℚ :=
  ((Int.floor (q * 100 + 1 / 2) : ℤ) : ℚ) / 100

/-- The aggregated statistics of the report tab: when the exit store is
non-empty, the displayed average satisfaction and average difficulty, each
rounded to two decimals; `none` when the store is empty. -/
def reportExitAverages (exit_store : Option CsvFile) : Option (ℚ × ℚ) :=
  let exit_df := load_from_csv exit_store
  if exit_df.rows.isEmpty then none
  else
    some (round2 (listMean ((getColumn exit_df "satisfaction").map Value.toRat)),
          round2 (listMean ((getColumn exit_df "difficulty").map Value.toRat)))

/-! ### Helper lemmas -/

/-- Appending one record grows the loaded rows by exactly that record's
values, whether or not the file already existed. -/
lemma loadRows_save (d : List (String × Value)) (s : Option CsvFile) :
    (load_from_csv (some (save_to_csv d s))).rows
      = (load_from_csv s).rows ++ [dictVals d] := by
  cases s <;> simp [load_from_csv, save_to_csv]

/-- Folded appends accumulate the records' value rows in order. -/
lemma loadRows_saveAll (ds : List (List (String × Value))) (s : Option CsvFile) :
    (load_from_csv (saveAll ds s)).rows
      = (load_from_csv s).rows ++ ds.map dictVals := by
  induction ds generalizing s with
  | nil => simp [saveAll]
  | cons d rest ih =>
      have h := ih (some (save_to_csv d s))
      simp only [saveAll, List.foldl_cons] at h ⊢
      rw [h, loadRows_save]
      simp

/-- Folded appends over an existing file keep its header and extend its rows. -/
lemma saveAll_some (ds : List (List (String × Value))) (f : CsvFile) :
    saveAll ds (some f) = some { header := f.header, rows := f.rows ++ ds.map dictVals } := by
  induction ds generalizing f with
  | nil => simp [saveAll]
  | cons d rest ih =>
      simp only [saveAll, List.foldl_cons] at ih ⊢
      rw [show save_to_csv d (some f) = { header := f.header, rows := f.rows ++ [dictVals d] } from rfl]
      rw [ih]
      simp

/-- Folded appends starting from a missing file take the header from the
first record's keys. -/
lemma saveAll_none (d : List (String × Value)) (ds : List (List (String × Value))) :
    saveAll (d :: ds) none
      = some { header := dictKeys d, rows := (d :: ds).map dictVals } := by
  have h1 : saveAll (d :: ds) none = saveAll ds (some (save_to_csv d none)) := by
    simp [saveAll]
  rw [h1, show save_to_csv d none = { header := dictKeys d, rows := [dictVals d] } from rfl,
    saveAll_some]
  simp

/-- Submitting a sequence of exit questionnaires is a fold of appends of the
corresponding dictionaries. -/
lemma submitExitAll_eq_saveAll (es : List ExitInput) (s : Option CsvFile) :
    submitExitAll es s = saveAll (es.map exitDict) s := by
  induction es generalizing s with
  | nil => rfl
  | cons e rest ih => simp [submitExitAll, saveAll, submitExit] at ih ⊢; exact ih _

/-! ### Claim theorems -/

/-- C1: loading an untouched store returns an empty result, and after any
sequence of `n` appended records, loading returns exactly those `n` records
(their value rows), in the order they were appended. -/
theorem load_untouched_empty_and_appends_in_order :
    (load_from_csv none).rows = [] ∧
    ∀ ds : List (List (String × Value)),
      (load_from_csv (saveAll ds none)).rows = ds.map dictVals ∧
      (load_from_csv (saveAll ds none)).rows.length = ds.length := by
  refine ⟨rfl, fun ds => ?_⟩
  rw [loadRows_saveAll]
  exact ⟨rfl, by simp [load_from_csv]⟩

/-- C2: pressing "Submit Consent" with the checkbox unchecked, any number of
times, leaves the consent store unchanged and surfaces one warning per
press. -/
theorem unchecked_consent_never_appends :
    ∀ (tss : List String) (store : Option CsvFile),
      consentPresses (tss.map fun ts => (false, ts)) store
        = (store, List.replicate tss.length true) := by
  intro tss
  induction tss with
  | nil => intro store; rfl
  | cons ts rest ih =>
      intro store
      simp [consentPresses, submitConsent, ih, List.replicate]

/-- C6: each of the four stages appends exactly one record per valid submit
action, and repeating the same submit `n` times appends `n` duplicate
records. -/
theorem one_record_per_submit_no_dedup :
    (∀ (ts : String) (store : Option CsvFile),
      (load_from_csv (submitConsent true ts store).1).rows
        = (load_from_csv store).rows ++ [dictVals (consentDict ts true)]) ∧
    (∀ (ts name : String) (age : Int) (occ fam : String) (store : Option CsvFile),
      (load_from_csv (submitDemographics ts name age occ fam store)).rows
        = (load_from_csv store).rows
          ++ [dictVals (demographicDict ts name age occ fam)]) ∧
    (∀ (st : TaskState) (ts tn succ notes : String),
      (load_from_csv (taskStep st (TaskAction.saveResults ts tn succ notes)).store).rows
        = (load_from_csv st.store).rows
          ++ [dictVals (taskDict ts tn succ st.task_duration notes)]) ∧
    (∀ (e : ExitInput) (store : Option CsvFile),
      (load_from_csv (submitExit e store)).rows
        = (load_from_csv store).rows ++ [dictVals (exitDict e)]) ∧
    (∀ (d : List (String × Value)) (n : ℕ) (store : Option CsvFile),
      (load_from_csv (saveAll (List.replicate n d) store)).rows
        = (load_from_csv store).rows ++ List.replicate n (dictVals d)) := by
  refine ⟨?_, ?_, ?_, ?_, ?_⟩
  · intro ts store
    simpa [submitConsent] using loadRows_save (consentDict ts true) store
  · intro ts name age occ fam store
    simpa [submitDemographics]
      using loadRows_save (demographicDict ts name age occ fam) store
  · intro st ts tn succ notes
    simpa [taskStep]
      using loadRows_save (taskDict ts tn succ st.task_duration notes) st.store
  · intro e store
    simpa [submitExit] using loadRows_save (exitDict e) store
  · intro d n store
    rw [loadRows_saveAll]
    simp

/-- C7: the first append creates the store with a header taken from the keys
of the first record, and every later append adds exactly one data row while
keeping the existing header unchanged. -/
theorem first_append_header_then_rows_only :
    (∀ d : List (String × Value),
      save_to_csv d none = { header := dictKeys d, rows := [dictVals d] }) ∧
    (∀ (d : List (String × Value)) (f : CsvFile),
      save_to_csv d (some f)
        = { header := f.header, rows := f.rows ++ [dictVals d] }) :=
  ⟨fun _ => rfl, fun _ _ => rfl⟩

/-- C8: appending a record whose key set differs from the store's header is
not rejected: the append completes, the header is untouched, and the
mismatched value row is stored verbatim as the last row. -/
theorem mismatched_keys_append_completes (d : List (String × Value)) (f : CsvFile)
    (h : dictKeys d ≠ f.header) :
    save_to_csv d (some f)
        = { header := f.header, rows := f.rows ++ [dictVals d] } ∧
    (save_to_csv d (some f)).header = f.header ∧
    (save_to_csv d (some f)).rows.getLast? = some (dictVals d) := by
  refine ⟨rfl, rfl, ?_⟩
  simp [save_to_csv]

/-- C8 witness: a record with key `age` appended to a store whose header is
`timestamp, consent_given` still completes, keeping the header. -/
theorem mismatched_keys_append_completes_witness :
    dictKeys [("age", Value.int 3)] ≠ ["timestamp", "consent_given"] ∧
    save_to_csv [("age", Value.int 3)]
        (some { header := ["timestamp", "consent_given"], rows := [] })
      = { header := ["timestamp", "consent_given"], rows := [[Value.int 3]] } :=
  ⟨by decide,
   (mismatched_keys_append_completes [("age", Value.int 3)]
      { header := ["timestamp", "consent_given"], rows := [] } (by decide)).1⟩

/-- C10: every row of the consent store reachable by any sequence of consent
submissions carries the consent flag `True` in its `consent_given` column. -/
theorem consent_store_flag_always_true :
    ∀ presses : List (Bool × String),
      ((load_from_csv (consentPresses presses none).1).rows).all
        (fun r => r.get? 1 == some (Value.bool true)) = true := by
  have key : ∀ (presses : List (Bool × String)) (store : Option CsvFile),
      ((load_from_csv store).rows).all
        (fun r => r.get? 1 == some (Value.bool true)) = true →
      ((load_from_csv (consentPresses presses store).1).rows).all
        (fun r => r.get? 1 == some (Value.bool true)) = true := by
    intro presses
    induction presses with
    | nil => intro store h; exact h
    | cons p rest ih =>
        intro store h
        obtain ⟨cg, ts⟩ := p
        cases cg with
        | false =>
            simpa [consentPresses, submitConsent] using ih store h
        | true =>
            have h2 : ((load_from_csv
                (some (save_to_csv (consentDict ts true) store))).rows).all
                (fun r => r.get? 1 == some (Value.bool true)) = true := by
              rw [loadRows_save]
              simp only [List.all_append, h, Bool.true_and]
              simp [dictVals, consentDict]
            simpa [consentPresses, submitConsent] using ih _ h2
  intro presses
  exact key presses none (by simp [load_from_csv])

/-- Saving a task record makes the stored duration cell of the last row the
`durationField` of the session's duration value. -/
lemma lastDurationCell_save (ts tn succ notes : String) (dv : Option ℚ)
    (store : Option CsvFile) :
    lastDurationCell (some (save_to_csv (taskDict ts tn succ dv notes) store))
      = some (durationField dv) := by
  simp only [lastDurationCell]
  rw [loadRows_save, List.getLast?_concat]
  simp [dictVals, taskDict]

/-- C3 counterexample: starting the timer at time 5 and stopping it at time
5, then saving, records the empty string, not the number `5 - 5`, in the
duration column. -/
theorem task_zero_duration_counterexample :
    lastDurationCell (runTask (initTask none)
        [TaskAction.startTimer 5, TaskAction.stopTimer 5,
         TaskAction.saveResults "2024-01-01 00:00:00" "Task 1: Example Task"
           "Yes" "n"]).store
      = some (Value.str "") ∧
    some (Value.str "") ≠ some (Value.rat (5 - 5)) := by
  constructor
  · simp only [runTask, List.foldl_cons, List.foldl_nil, taskStep, initTask]
    rw [lastDurationCell_save]
    norm_num [durationField]
  · exact fun hEq => Value.noConfusion (Option.some.inj hEq)

/-- C3 (amended): the recorded duration equals stop-time minus start-time
when start then stop precede save and that difference is nonzero (a zero
difference is stored as the empty string, see the counterexample); the
duration cell is the empty string when the timer was never stopped or never
started. -/
theorem task_duration_stop_minus_start (s t : ℚ) (ts tn succ notes : String)
    (store : Option CsvFile) :
    (t - s ≠ 0 →
      lastDurationCell (runTask (initTask store)
          [TaskAction.startTimer s, TaskAction.stopTimer t,
           TaskAction.saveResults ts tn succ notes]).store
        = some (Value.rat (t - s))) ∧
    lastDurationCell (runTask (initTask store)
        [TaskAction.saveResults ts tn succ notes]).store
      = some (Value.str "") ∧
    lastDurationCell (runTask (initTask store)
        [TaskAction.startTimer s, TaskAction.saveResults ts tn succ notes]).store
      = some (Value.str "") := by
  refine ⟨fun h => ?_, ?_, ?_⟩
  · simp only [runTask, List.foldl_cons, List.foldl_nil, taskStep, initTask]
    rw [lastDurationCell_save]
    simp [durationField, h]
  · simp only [runTask, List.foldl_cons, List.foldl_nil, taskStep, initTask]
    rw [lastDurationCell_save]
    rfl
  · simp only [runTask, List.foldl_cons, List.foldl_nil, taskStep, initTask]
    rw [lastDurationCell_save]
    rfl

/-- C3 witness: starting at 1 and stopping at 3 records duration `3 - 1`. -/
theorem task_duration_stop_minus_start_witness :
    (3 - 1 : ℚ) ≠ 0 ∧
    lastDurationCell (runTask (initTask none)
        [TaskAction.startTimer 1, TaskAction.stopTimer 3,
         TaskAction.saveResults "t" "Task 1: Example Task" "Yes" "n"]).store
      = some (Value.rat (3 - 1)) :=
  ⟨by norm_num,
   (task_duration_stop_minus_start 1 3 "t" "Task 1: Example Task" "Yes" "n"
      none).1 (by norm_num)⟩

/-- C9: a timer run whose computed duration is zero, and more generally any
falsy stored duration (`0` or absent), is saved as the empty string rather
than the number, because the code tests the value for truthiness. -/
theorem zero_duration_saved_as_empty_string :
    (∀ (s : ℚ) (ts tn succ notes : String) (store : Option CsvFile),
      lastDurationCell (runTask (initTask store)
          [TaskAction.startTimer s, TaskAction.stopTimer s,
           TaskAction.saveResults ts tn succ notes]).store
        = some (Value.str "")) ∧
    durationField (some 0) = Value.str "" ∧
    durationField none = Value.str "" := by
  refine ⟨fun s ts tn succ notes store => ?_, by simp [durationField], rfl⟩
  simp only [runTask, List.foldl_cons, List.foldl_nil, taskStep, initTask]
  rw [lastDurationCell_save]
  simp [durationField]

/-- Shape of the exit store after a non-empty sequence of submissions: the
four exit column names as header, one value row per submission, in order. -/
lemma exit_store_shape (e : ExitInput) (es : List ExitInput) :
    submitExitAll (e :: es) none
      = some { header := ["timestamp", "satisfaction", "difficulty", "open_feedback"],
               rows := (e :: es).map fun x =>
                 [Value.str x.ts, Value.int x.satisfaction,
                  Value.int x.difficulty, Value.str x.open_feedback] } := by
  rw [submitExitAll_eq_saveAll, List.map_cons, saveAll_none]
  simp [dictKeys, dictVals, exitDict, List.map_map, Function.comp]

/-- Extracting column 1 (satisfaction) from exit value rows. -/
lemma exit_rows_satisfaction (es : List ExitInput) :
    (es.map fun x => [Value.str x.ts, Value.int x.satisfaction,
        Value.int x.difficulty, Value.str x.open_feedback]).filterMap
      (fun r => r.get? 1) = es.map fun x => Value.int x.satisfaction := by
  induction es with
  | nil => rfl
  | cons e rest ih =>
      rw [List.map_cons, List.filterMap_cons]
      show Value.int e.satisfaction :: _ = _
      rw [ih, List.map_cons]

/-- Extracting column 2 (difficulty) from exit value rows. -/
lemma exit_rows_difficulty (es : List ExitInput) :
    (es.map fun x => [Value.str x.ts, Value.int x.satisfaction,
        Value.int x.difficulty, Value.str x.open_feedback]).filterMap
      (fun r => r.get? 2) = es.map fun x => Value.int x.difficulty := by
  induction es with
  | nil => rfl
  | cons e rest ih =>
      rw [List.map_cons, List.filterMap_cons]
      show Value.int e.difficulty :: _ = _
      rw [ih, List.map_cons]

/-- Report averages over any non-empty exit store: the displayed values are
the rounded means of the satisfaction and difficulty columns. -/
lemma reportExitAverages_submitAll (e : ExitInput) (es : List ExitInput) :
    reportExitAverages (submitExitAll (e :: es) none)
      = some (round2 (listMean ((e :: es).map fun x => (x.satisfaction : ℚ))),
              round2 (listMean ((e :: es).map fun x => (x.difficulty : ℚ)))) := by
  rw [exit_store_shape]
  simp only [reportExitAverages, load_from_csv, List.map_cons, List.isEmpty_cons,
    if_false, Bool.false_eq_true]
  rw [show getColumn
      { header := ["timestamp", "satisfaction", "difficulty", "open_feedback"],
        rows := (fun x => [Value.str x.ts, Value.int x.satisfaction,
          Value.int x.difficulty, Value.str x.open_feedback]) e ::
          List.map (fun x => [Value.str x.ts, Value.int x.satisfaction,
            Value.int x.difficulty, Value.str x.open_feedback]) es } "satisfaction"
    = ((e :: es).map fun x => [Value.str x.ts, Value.int x.satisfaction,
        Value.int x.difficulty, Value.str x.open_feedback]).filterMap
        (fun r => r.get? 1) from rfl]
  rw [show getColumn
      { header := ["timestamp", "satisfaction", "difficulty", "open_feedback"],
        rows := (fun x => [Value.str x.ts, Value.int x.satisfaction,
          Value.int x.difficulty, Value.str x.open_feedback]) e ::
          List.map (fun x => [Value.str x.ts, Value.int x.satisfaction,
            Value.int x.difficulty, Value.str x.open_feedback]) es } "difficulty"
    = ((e :: es).map fun x => [Value.str x.ts, Value.int x.satisfaction,
        Value.int x.difficulty, Value.str x.open_feedback]).filterMap
        (fun r => r.get? 2) from rfl]
  rw [exit_rows_satisfaction, exit_rows_difficulty]
  simp [List.map_map, Function.comp_def, Value.toRat]

/-- C4: on a non-empty exit store, the report displays the arithmetic means
of the satisfaction and difficulty columns rounded to two decimals; for
satisfaction values 5, 4, 3 and difficulty values 2, 3, 4 it computes 4.00
and 3.00. -/
theorem exit_report_mean_rounded (es : List ExitInput) (h : es ≠ []) :
    reportExitAverages (submitExitAll es none)
      = some (round2 (listMean (es.map fun e => (e.satisfaction : ℚ))),
              round2 (listMean (es.map fun e => (e.difficulty : ℚ)))) ∧
    reportExitAverages (submitExitAll
        [{ ts := "t1", satisfaction := 5, difficulty := 2, open_feedback := "" },
         { ts := "t2", satisfaction := 4, difficulty := 3, open_feedback := "" },
         { ts := "t3", satisfaction := 3, difficulty := 4, open_feedback := "" }]
        none)
      = some (4, 3) := by
  constructor
  · obtain ⟨e, rest, rfl⟩ := List.exists_cons_of_ne_nil h
    exact reportExitAverages_submitAll e rest
  · rw [show ([{ ts := "t1", satisfaction := 5, difficulty := 2, open_feedback := "" },
         { ts := "t2", satisfaction := 4, difficulty := 3, open_feedback := "" },
         { ts := "t3", satisfaction := 3, difficulty := 4, open_feedback := "" }]
           : List ExitInput)
      = { ts := "t1", satisfaction := 5, difficulty := 2, open_feedback := "" } ::
        [{ ts := "t2", satisfaction := 4, difficulty := 3, open_feedback := "" },
         { ts := "t3", satisfaction := 3, difficulty := 4, open_feedback := "" }]
      from rfl, reportExitAverages_submitAll]
    norm_num [listMean, round2]

/-- C4 witness: the report on the store with satisfaction column 5, 4, 3 and
difficulty column 2, 3, 4 displays averages 4.00 and 3.00. -/
theorem exit_report_mean_rounded_witness :
    reportExitAverages (submitExitAll
        [{ ts := "t1", satisfaction := 5, difficulty := 2, open_feedback := "" },
         { ts := "t2", satisfaction := 4, difficulty := 3, open_feedback := "" },
         { ts := "t3", satisfaction := 3, difficulty := 4, open_feedback := "" }]
        none)
      = some (4, 3) :=
  (exit_report_mean_rounded
    [{ ts := "t1", satisfaction := 5, difficulty := 2, open_feedback := "" },
     { ts := "t2", satisfaction := 4, difficulty := 3, open_feedback := "" },
     { ts := "t3", satisfaction := 3, difficulty := 4, open_feedback := "" }]
    (by simp)).2

/-- C5: appending the exit record with satisfaction 5, difficulty 1 and
feedback "none" and then loading reproduces the previous records followed by
exactly that record, all four field values (timestamp string included)
unchanged. -/
theorem exit_roundtrip_preserves_fields (prev : List ExitInput) (ts : String) :
    dataFrameRecords (load_from_csv
        (submitExit ⟨ts, 5, 1, "none"⟩ (submitExitAll prev none)))
      = dataFrameRecords (load_from_csv (submitExitAll prev none))
        ++ [exitDict ⟨ts, 5, 1, "none"⟩] := by
  cases prev with
  | nil => rfl
  | cons e rest =>
      rw [exit_store_shape]
      simp [dataFrameRecords, submitExit, save_to_csv, load_from_csv,
        exitDict, dictVals]
